import Mathlib

/-!
Verification development for the therapist-copilot client streaming pipeline.

The definitions below are shallow embeddings of the client-side code:

* `frontend/public/audio-processor-worklet.js` — the AudioWorklet resampler
  (48 kHz float input, nearest-neighbor decimation by 3, 16-bit quantization,
  800-sample minimum frames);
* `frontend/src/hooks/useWebSocket.ts` — the WebSocket transport (close
  handling, reconnect backoff), the inbound-message handlers (the `switch`
  in `ws.current.onmessage`), `stopRecording`, `startRecording`'s guard, the
  audio-frame send guards, `resetSession`, and the `endSession` timer logic.

JavaScript numbers appearing as float samples, jitter and risk scores are
modelled as `ℚ`; machine behaviour relevant to the claims involves only
small values, so no overflow modelling is needed.  Timer behaviour is
modelled discretely in milliseconds; where two timers share a deadline the
one scheduled earlier fires first (FIFO within a deadline, as in the JS
event loop).
-/

namespace TherapistCopilot

/-! ### Audio worklet resampler (`audio-processor-worklet.js`) -/

/-- `this.downsampleRatio = 3` (48000 / 16000). -/
def downsampleRatio : Nat := 3

/-- `this.targetSamples = 800` (50 ms at 16 kHz). -/
def targetSamples : Nat := 800

/-- `Math.round(Math.max(-1, Math.min(1, sample)) * 32767)`.  JS `Math.round`
rounds half toward `+∞`, which is Mathlib's `round` on `ℚ`. -/
def clampScale (x : ℚ) : Int := round (max (-1 : ℚ) (min 1 x) * 32767)

/-- The worklet's mutable fields: `this.buffer`, `this.sampleCounter`, plus
the list of frames posted so far via `this.port.postMessage`. -/
structure WorkletState where
  buffer : List Int
  sampleCounter : Nat
  emitted : List (List Int)
deriving DecidableEq, Repr

def freshWorklet : WorkletState := ⟨[], 0, []⟩

/-- One iteration of the `for` loop in `AudioProcessorWorklet.process`:
keep the sample when `sampleCounter % downsampleRatio === 0`, emit the
buffer as a frame once it reaches `targetSamples`, and always increment
the counter. -/
def processSample (s : WorkletState) (x : ℚ) : WorkletState :=
  let s1 :=
    if s.sampleCounter % downsampleRatio = 0 then
      let buf := s.buffer ++ [clampScale x]
      if targetSamples ≤ buf.length then
        { s with buffer := [], emitted := s.emitted ++ [buf] }
      else
        { s with buffer := buf }
    else s
  { s1 with sampleCounter := s1.sampleCounter + 1 }

/-- Feeding a whole input block through the worklet loop. -/
def processInput (s : WorkletState) (xs : List ℚ) : WorkletState :=
  xs.foldl processSample s

/-- The counting abstraction of a worklet state: buffer length, counter,
and the lengths of the emitted frames. -/
structure WorkletShape where
  bufLen : Nat
  counter : Nat
  frameLens : List Nat
deriving DecidableEq, Repr

def shapeOf (s : WorkletState) : WorkletShape :=
  ⟨s.buffer.length, s.sampleCounter, s.emitted.map List.length⟩

/-- `processSample` on the counting abstraction. -/
def shapeStep (sh : WorkletShape) : WorkletShape :=
  let sh1 :=
    if sh.counter % downsampleRatio = 0 then
      if targetSamples ≤ sh.bufLen + 1 then
        ⟨0, sh.counter, sh.frameLens ++ [sh.bufLen + 1]⟩
      else
        ⟨sh.bufLen + 1, sh.counter, sh.frameLens⟩
    else sh
  { sh1 with counter := sh1.counter + 1 }

def shapeRun : Nat → WorkletShape → WorkletShape
  | 0, sh => sh
  | n + 1, sh => shapeRun n (shapeStep sh)

lemma shapeOf_processSample (s : WorkletState) (x : ℚ) :
    shapeOf (processSample s x) = shapeStep (shapeOf s) := by
  simp only [processSample, shapeStep, shapeOf, List.length_append, List.length_singleton]
  split_ifs <;> simp_all [shapeOf]

lemma shapeOf_processInput (xs : List ℚ) (s : WorkletState) :
    shapeOf (processInput s xs) = shapeRun xs.length (shapeOf s) := by
  induction xs generalizing s with
  | nil => rfl
  | cons x xs ih =>
      show shapeOf (processInput (processSample s x) xs) = shapeRun (xs.length + 1) (shapeOf s)
      rw [ih (processSample s x), shapeOf_processSample]
      rfl

lemma shapeStep_keep (b c : Nat) (F : List Nat) (hc : c % 3 = 0) (hb : b + 1 < 800) :
    shapeStep ⟨b, c, F⟩ = ⟨b + 1, c + 1, F⟩ := by
  simp [shapeStep, downsampleRatio, targetSamples, hc, Nat.not_le.mpr hb]

lemma shapeStep_skip (b c : Nat) (F : List Nat) (hc : c % 3 ≠ 0) :
    shapeStep ⟨b, c, F⟩ = ⟨b, c + 1, F⟩ := by
  simp [shapeStep, downsampleRatio, hc]

lemma shapeRun_add (a b : Nat) (sh : WorkletShape) :
    shapeRun (a + b) sh = shapeRun b (shapeRun a sh) := by
  induction a generalizing sh with
  | zero =>
      rw [Nat.zero_add]
      rfl
  | succ a ih =>
      rw [Nat.succ_add]
      show shapeRun (a + b) (shapeStep sh) = shapeRun b (shapeRun (a + 1) sh)
      rw [ih (shapeStep sh)]
      rfl

lemma shapeRun_three_keep (b c : Nat) (F : List Nat) (hc : c % 3 = 0) (hb : b + 1 < 800) :
    shapeRun 3 ⟨b, c, F⟩ = ⟨b + 1, c + 3, F⟩ := by
  have e1 := shapeStep_keep b c F hc hb
  have e2 := shapeStep_skip (b + 1) (c + 1) F (by omega)
  have e3 := shapeStep_skip (b + 1) (c + 2) F (by omega)
  show shapeRun 2 (shapeStep ⟨b, c, F⟩) = _
  rw [e1]
  show shapeRun 1 (shapeStep ⟨b + 1, c + 1, F⟩) = _
  rw [e2]
  show shapeRun 0 (shapeStep ⟨b + 1, c + 2, F⟩) = _
  rw [e3]
  rfl

/-- Running `3 * k` native samples from a fresh worklet keeps `k` samples
and emits nothing while `k` stays below the 800-sample frame bound. -/
lemma shapeRun_fresh (k : Nat) (hk : k ≤ 799) :
    shapeRun (3 * k) ⟨0, 0, []⟩ = ⟨k, 3 * k, []⟩ := by
  induction k with
  | zero => rfl
  | succ k ih =>
      have h3 : 3 * (k + 1) = 3 * k + 3 := by ring
      rw [h3, shapeRun_add, ih (by omega), shapeRun_three_keep k (3 * k) [] (by omega) (by omega)]

/-- C3: for decimation ratio 3 (48 kHz native → 16 kHz target), feeding
exactly 2400 native samples through a fresh worklet emits exactly one
frame, and that frame holds exactly 800 quantized samples. -/
theorem c3_resampler_2400_native_one_800_frame (xs : List ℚ) (h : xs.length = 2400) :
    (processInput freshWorklet xs).emitted.length = 1 ∧
      ∀ f ∈ (processInput freshWorklet xs).emitted, f.length = 800 := by
  have hs : shapeOf (processInput freshWorklet xs) = ⟨0, 2400, [800]⟩ := by
    rw [shapeOf_processInput, h]
    have h24 : (2400 : Nat) = 3 * 799 + 3 := by norm_num
    show shapeRun 2400 ⟨0, 0, []⟩ = ⟨0, 2400, [800]⟩
    rw [h24, shapeRun_add, shapeRun_fresh 799 (by norm_num)]
    decide
  have hmap : (processInput freshWorklet xs).emitted.map List.length = [800] :=
    congrArg WorkletShape.frameLens hs
  refine ⟨?_, ?_⟩
  · have := congrArg List.length hmap
    simpa using this
  · intro f hf
    have : f.length ∈ [800] := hmap ▸ List.mem_map_of_mem List.length hf
    simpa using this

/-- Witness for C3 at the concrete input of 2400 zero samples. -/
theorem c3_resampler_witness :
    (processInput freshWorklet (List.replicate 2400 (0 : ℚ))).emitted.length = 1 ∧
      ∀ f ∈ (processInput freshWorklet (List.replicate 2400 (0 : ℚ))).emitted, f.length = 800 :=
  c3_resampler_2400_native_one_800_frame (List.replicate 2400 (0 : ℚ)) (List.length_replicate 2400 0)

/-! ### Transport close handling and reconnect policy (`useWebSocket.ts`,
`ws.current.onclose` / `ws.current.onopen` / the reconnect timer) -/

/-- The user-facing connection-error strings set by the close handler. -/
inductive ConnErr
  | freeTierLimit
  | maxAttempts
deriving DecidableEq, Repr

/-- The refs and state touched by the connect/close/reconnect logic:
`connectionAttempts.current`, `isManuallyDisconnected.current`,
`connectionError`, whether a reconnect timer is armed
(`reconnectTimeoutRef.current`), how many times `connect()` actually
proceeded past its guards, and `isConnected`. -/
structure NetState where
  attempts : Nat
  manual : Bool
  connError : Option ConnErr
  timerPending : Bool
  connectsStarted : Nat
  connected : Bool
deriving DecidableEq, Repr

/-- `ws.current.onclose`: mark disconnected; on code 1008 surface the
free-tier error and set the manual flag (no timer is armed, and any timer
already armed is left alone — the handler returns without touching it);
otherwise arm a reconnect timer while under 5 attempts, and surface the
terminal max-attempts error once the counter has reached 5. -/
def onClose (code : Nat) (s : NetState) : NetState :=
  let s1 := { s with connected := false }
  if code = 1008 then
    { s1 with connError := some .freeTierLimit, manual := true }
  else if s1.manual = false ∧ s1.attempts < 5 then
    { s1 with timerPending := true }
  else if 5 ≤ s1.attempts then
    { s1 with connError := some .maxAttempts }
  else s1

/-- The reconnect timer firing: `connectionAttempts.current++; connect();`.
`connect()` returns immediately when `isManuallyDisconnected.current` is
set; otherwise it proceeds (`setConnectionError(null)` and a fresh
WebSocket is created, counted in `connectsStarted`). -/
def fireReconnect (s : NetState) : NetState :=
  if s.timerPending then
    let s1 := { s with timerPending := false, attempts := s.attempts + 1 }
    if s1.manual then s1
    else { s1 with connError := none, connectsStarted := s1.connectsStarted + 1 }
  else s

/-- `ws.current.onopen`: connected, error cleared, attempt counter reset. -/
def onOpen (s : NetState) : NetState :=
  { s with connected := true, connError := none, attempts := 0 }

/-- Network-level occurrences after a given point: a transport close with
some code, or an armed reconnect timer firing. -/
inductive NetEvent
  | closeEvt (code : Nat)
  | fireTimer
deriving DecidableEq, Repr

def applyEvent (e : NetEvent) (s : NetState) : NetState :=
  match e with
  | .closeEvt code => onClose code s
  | .fireTimer => fireReconnect s

def applyEvents (evs : List NetEvent) (s : NetState) : NetState :=
  evs.foldl (fun s e => applyEvent e s) s

lemma applyEvent_manual_sticky (e : NetEvent) (s : NetState) (h : s.manual = true) :
    (applyEvent e s).manual = true ∧ (applyEvent e s).connectsStarted = s.connectsStarted := by
  cases e with
  | closeEvt code =>
      simp only [applyEvent, onClose]
      split_ifs <;> simp_all
  | fireTimer =>
      simp only [applyEvent, fireReconnect]
      split_ifs <;> simp_all

lemma applyEvents_manual_suppresses (evs : List NetEvent) (s : NetState) (h : s.manual = true) :
    (applyEvents evs s).manual = true ∧ (applyEvents evs s).connectsStarted = s.connectsStarted := by
  induction evs generalizing s with
  | nil => exact ⟨h, rfl⟩
  | cons e evs ih =>
      obtain ⟨h1, h2⟩ := applyEvent_manual_sticky e s h
      obtain ⟨h3, h4⟩ := ih (applyEvent e s) h1
      exact ⟨h3, by rw [show applyEvents (e :: evs) s = applyEvents evs (applyEvent e s) from rfl, h4, h2]⟩

/-- C4: for every prior state, a close with the policy-violation code 1008
arms no reconnect timer (the pending-timer flag is exactly what it was
before), surfaces the user-actionable free-tier error, sets the
manual-disconnect flag, and under any further close/timer events that flag
stays set and `connect()` is never entered again. -/
theorem c4_policy_violation_never_reconnects (s : NetState) (evs : List NetEvent) :
    (onClose 1008 s).timerPending = s.timerPending ∧
      (onClose 1008 s).manual = true ∧
      (onClose 1008 s).connError = some ConnErr.freeTierLimit ∧
      (applyEvents evs (onClose 1008 s)).manual = true ∧
      (applyEvents evs (onClose 1008 s)).connectsStarted = s.connectsStarted := by
  have h1 : onClose 1008 s =
      { s with connected := false, connError := some .freeTierLimit, manual := true } := by
    simp [onClose]
  obtain ⟨h2, h3⟩ := applyEvents_manual_suppresses evs (onClose 1008 s) (by rw [h1])
  refine ⟨by rw [h1], by rw [h1], by rw [h1], h2, by rw [h3, h1]⟩

/-- State right after a successful open: counter reset, no error, no armed
timer, connected. -/
def openedState : NetState := ⟨0, false, none, false, 0, true⟩

/-- One failure cycle: the connection closes abnormally (code 1006) and the
reconnect timer armed by the close handler (if any) then fires. -/
def failCycle (s : NetState) : NetState := fireReconnect (onClose 1006 s)

def cyclesN : Nat → NetState → NetState
  | 0, s => s
  | n + 1, s => failCycle (cyclesN n s)

lemma failCycle_mid (k : Nat) (hk : k < 5) :
    failCycle ⟨k, false, none, false, k, false⟩ = ⟨k + 1, false, none, false, k + 1, false⟩ := by
  simp [failCycle, onClose, fireReconnect, hk]

lemma failCycle_terminal :
    failCycle ⟨5, false, some .maxAttempts, false, 5, false⟩ =
      ⟨5, false, some .maxAttempts, false, 5, false⟩ := by decide

/-- Closed form of the abnormal-failure loop started from a fresh open:
the first five closes each arm and fire one reconnect; from the sixth
close on, the state is stuck at the terminal max-attempts error. -/
lemma cyclesN_closed (n : Nat) (hn : 1 ≤ n) :
    cyclesN n openedState =
      if n ≤ 5 then ⟨n, false, none, false, n, false⟩
      else ⟨5, false, some .maxAttempts, false, 5, false⟩ := by
  induction n with
  | zero => omega
  | succ n ih =>
      by_cases h0 : n = 0
      · subst h0; decide
      · show failCycle (cyclesN n openedState) = _
        rw [ih (by omega)]
        by_cases h5 : n ≤ 5
        · rw [if_pos h5]
          by_cases hlt : n < 5
          · rw [failCycle_mid n hlt, if_pos (by omega)]
          · have hn5 : n = 5 := by omega
            subst hn5
            rw [if_neg (by omega)]
            have : failCycle ⟨5, false, none, false, 5, false⟩ =
                ⟨5, false, some .maxAttempts, false, 5, false⟩ := by decide
            exact this
        · rw [if_neg h5, if_neg (by omega)]
          exact failCycle_terminal

/-- C2 counterexample: after exactly 5 consecutive abnormal (1006)
closures from a fresh open, the close handler has just armed a 5th
reconnect timer and no terminal error has been surfaced — the terminal
max-attempts error only appears when the 5th reconnect attempt itself
closes (the 6th closure). -/
theorem c2_counterexample_five_closes_still_reconnects :
    (onClose 1006 (cyclesN 4 openedState)).timerPending = true ∧
      (onClose 1006 (cyclesN 4 openedState)).connError = none ∧
      (fireReconnect (onClose 1006 (cyclesN 4 openedState))).connectsStarted = 5 := by
  decide

/-- C2 (amended): the 6th consecutive abnormal closure (the failure of the
5th reconnect attempt) surfaces the terminal max-attempts error and arms no
further reconnect timer; and along the whole abnormal-failure loop at most
5 reconnect attempts are ever started between successful opens. -/
theorem c2_amended_six_closes_terminal_and_at_most_five_reconnects :
    (onClose 1006 (cyclesN 5 openedState)).connError = some ConnErr.maxAttempts ∧
      (onClose 1006 (cyclesN 5 openedState)).timerPending = false ∧
      ∀ n : Nat, (cyclesN n openedState).connectsStarted ≤ 5 := by
  refine ⟨by decide, by decide, ?_⟩
  intro n
  rcases Nat.eq_zero_or_pos n with h0 | h1
  · subst h0; decide
  · rw [cyclesN_closed n h1]
    split_ifs with h
    · simpa using h
    · simp

/-- `Math.min(1000 * Math.pow(2, connectionAttempts.current), 30000)`. -/
def baseDelayMs (attempts : Nat) : ℚ := min (1000 * 2 ^ attempts) 30000

/-- `baseDelay + jitter` with `jitter = Math.random() * 1000`. -/
def scheduledDelayMs (attempts : Nat) (jitter : ℚ) : ℚ := baseDelayMs attempts + jitter

/-- C7: for consecutive failed reconnect attempts — the later one is only
scheduled while the attempt counter is below 5, so `n + 1 < 5` — the later
scheduled delay (base plus any admissible jitter) is at least the earlier
one: the base doubles, which dominates the at-most-one-base-unit jitter,
so the backoff is monotone without ever reaching the 30000 ms cap. -/
theorem c7_backoff_monotone (n : Nat) (j1 j2 : ℚ)
    (hn : n + 1 < 5) (hj1l : 0 ≤ j1) (hj1u : j1 < 1000) (hj2l : 0 ≤ j2) (hj2u : j2 < 1000) :
    scheduledDelayMs n j1 ≤ scheduledDelayMs (n + 1) j2 := by
  have hb : baseDelayMs n + 1000 ≤ baseDelayMs (n + 1) := by
    have hn3 : n ≤ 3 := by omega
    interval_cases n <;> norm_num [baseDelayMs, min_def]
  simp only [scheduledDelayMs]
  linarith

/-- Witness for C7 at attempt 0 → 1 with extreme admissible jitters. -/
theorem c7_backoff_witness : scheduledDelayMs 0 999 ≤ scheduledDelayMs 1 0 :=
  c7_backoff_monotone 0 999 0 (by norm_num) (by norm_num) (by norm_num) (by norm_num) (by norm_num)

/-! ### Inbound message handling (the `switch` in `ws.current.onmessage`) -/

inductive RiskLevel
  | low | medium | high | critical
deriving DecidableEq, Repr

inductive MentalTag
  | calm | stressed | anxious | depressed | suicidal
deriving DecidableEq, Repr

structure WindowContext where
  wordsAnalyzed : Nat
  transcriptCount : Nat
  windowSeconds : ℚ
deriving DecidableEq, Repr

/-- The `currentRisk` state object. -/
structure CurrentRisk where
  score : ℚ
  level : RiskLevel
  mentalState : MentalTag
  emotions : List String
  explanation : String
  recommendations : List String
  lastUpdated : String
  windowContext : Option WindowContext
deriving DecidableEq, Repr

/-- The initializer passed to `useState` for `currentRisk`. -/
def initialRisk : CurrentRisk := ⟨0, .low, .calm, [], "", [], "", none⟩

inductive STTTag
  | disconnected | connecting | ready | error
deriving DecidableEq, Repr

/-- The `sttState` object.  The source field `lastPartial` is here named
`lastInterim`. -/
structure STTState where
  tag : STTTag
  provider : Option String
  lastInterim : String
  errorMessage : Option String
deriving DecidableEq, Repr

def initialSTT : STTState := ⟨.disconnected, none, "", none⟩

structure AudioConfig where
  sampleRate : Nat
  chunkMs : Nat
  chunkSamples : Nat
deriving DecidableEq, Repr

/-- Payload of `risk_assessment` / `risk_warning`.  Fields the handlers
defaulted with `||` / optional chaining are `Option`s. -/
structure RiskData where
  riskScore : ℚ
  riskLevel : RiskLevel
  mentalState : Option MentalTag
  topEmotions : Option (List String)
  explanation : String
  recommendations : Option (List String)
  windowContext : Option WindowContext
deriving DecidableEq, Repr

/-- Payload of `crisis_detected`. -/
structure CrisisData where
  riskScore : ℚ
  mentalState : Option MentalTag
  explanation : String
  recommendations : Option (List String)
  sessionLocked : Bool
deriving DecidableEq, Repr

/-- The tagged union of inbound message kinds with the payload fields the
handlers actually read. -/
inductive MsgData
  | connectionEstablished (sttStateStr : String) (sttProvider : Option String)
      (audioConfig : Option AudioConfig)
  | sttReady (sttProvider : Option String)
  | transcription (text : String) (isFinal : Bool)
  | riskAssessment (d : RiskData)
  | riskWarning (d : RiskData)
  | crisisDetected (d : CrisisData)
  | audioReceived
  | sttErrorMsg (msg : String)
  | sessionSummary
  | serverError (msg : String)
deriving DecidableEq, Repr

/-- A parsed `WSMessage`: kind-specific data, `session_id`, `timestamp`. -/
structure WSMsg where
  data : MsgData
  sessionId : String
  timestamp : String
deriving DecidableEq, Repr

/-- The hook state read and written by the `onmessage` handler. -/
structure SessionState where
  messages : List WSMsg
  stt : STTState
  audioConfig : Option AudioConfig
  currentRisk : CurrentRisk
  isCrisisMode : Bool
  isSessionLocked : Bool
  isProcessingComplete : Bool
  finalTranscripts : List WSMsg
  connectionError : Option String
  manual : Bool
  hasReceivedTranscription : Bool
deriving DecidableEq, Repr

def initialSessionState : SessionState :=
  ⟨[], initialSTT, none, initialRisk, false, false, false, [], none, false, false⟩

/-- `needle` occurs as a contiguous substring of `hay` (JS `includes`). -/
def containsSub (needle hay : String) : Bool :=
  decide (List.IsInfix needle.toList hay.toList)

/-- The message shown for the provider free-tier limit. -/
def freeTierText : String :=
  "🚫 Free tier limit: Only one session allowed. Close other tabs or wait 15 seconds."

/-- The `case 'error'` branch: surface the message; quota/concurrency
keywords additionally set the manual-disconnect flag (reconnect
suppression), the free-tier keywords also overwrite the surfaced text. -/
def handleServerError (msg : String) (s : SessionState) : SessionState :=
  let s1 := { s with connectionError := some msg }
  if containsSub "free tier" msg || containsSub "concurrent" msg then
    { s1 with manual := true, connectionError := some freeTierText }
  else if containsSub "limit" msg then
    { s1 with manual := true }
  else s1

/-- One inbound message through `ws.current.onmessage`: append to the log,
then dispatch on the kind.  (The `session_summary` branch additionally
schedules a `ws.close(1000)` 500 ms later; that timer is modelled in the
`endSessionOutcome` section.) -/
def handleMessage (m : WSMsg) (s : SessionState) : SessionState :=
  let s := { s with messages := s.messages ++ [m] }
  match m.data with
  | .connectionEstablished sttStateStr prov cfg =>
      let s1 :=
        if sttStateStr = "ready" then
          { s with stt := { s.stt with tag := .ready, provider := prov } }
        else
          { s with stt := { s.stt with tag := .connecting, provider := prov } }
      match cfg with
      | some c => { s1 with audioConfig := some c }
      | none => s1
  | .sttReady prov =>
      { s with stt := { s.stt with tag := .ready, provider := prov } }
  | .transcription text isFinal =>
      let s1 := { s with hasReceivedTranscription := true,
                         stt := { s.stt with lastInterim := text } }
      if isFinal then
        { s1 with finalTranscripts :=
            s1.finalTranscripts.drop (s1.finalTranscripts.length - 19) ++ [m] }
      else s1
  | .riskAssessment d =>
      { s with currentRisk :=
          { score := d.riskScore
            level := d.riskLevel
            mentalState := d.mentalState.getD .calm
            emotions := d.topEmotions.getD []
            explanation := d.explanation
            recommendations := d.recommendations.getD []
            lastUpdated := m.timestamp
            windowContext := d.windowContext } }
  | .riskWarning d =>
      { s with currentRisk :=
          { s.currentRisk with
            score := d.riskScore
            level := d.riskLevel
            mentalState := d.mentalState.getD .stressed
            explanation := d.explanation
            recommendations := d.recommendations.getD []
            lastUpdated := m.timestamp } }
  | .crisisDetected d =>
      let s1 := { s with isCrisisMode := true, currentRisk :=
          { score := d.riskScore
            level := .critical
            mentalState := d.mentalState.getD .suicidal
            emotions := []
            explanation := d.explanation
            recommendations := d.recommendations.getD []
            lastUpdated := m.timestamp
            windowContext := none } }
      if d.sessionLocked then { s1 with isSessionLocked := true } else s1
  | .audioReceived => s
  | .sttErrorMsg msg =>
      { s with stt := { s.stt with tag := .error, errorMessage := some msg } }
  | .sessionSummary => { s with isProcessingComplete := true }
  | .serverError msg => handleServerError msg s

def runMessages (msgs : List WSMsg) (s : SessionState) : SessionState :=
  msgs.foldl (fun s m => handleMessage m s) s

/-- `resetSession`: clear the log, transcripts, risk snapshot, crisis/lock
flags, errors and the manual flag.  (It also resets
`connectionAttempts.current`, a field of `NetState` in this development.) -/
def resetSession (s : SessionState) : SessionState :=
  { s with messages := [], hasReceivedTranscription := false, connectionError := none,
           isProcessingComplete := false, isCrisisMode := false, isSessionLocked := false,
           currentRisk := initialRisk, finalTranscripts := [], manual := false }

lemma handleMessage_lock_sticky (m : WSMsg) (s : SessionState) (h : s.isSessionLocked = true) :
    (handleMessage m s).isSessionLocked = true := by
  rcases m with ⟨d, sid, ts⟩
  cases d <;> simp only [handleMessage, handleServerError] <;> try exact h
  case connectionEstablished sttStateStr prov cfg =>
    cases cfg <;> split_ifs <;> exact h
  case transcription text isFinal =>
    split_ifs <;> exact h
  case crisisDetected d =>
    split_ifs <;> simp [h]
  case serverError msg =>
    split_ifs <;> exact h

/-- C5: once the session-lock flag is true, no processed inbound event of
any kind (including a later low-level risk assessment) clears it; only the
explicit whole-session reset sets it back to false. -/
theorem c5_session_lock_sticky (msgs : List WSMsg) (s : SessionState)
    (h : s.isSessionLocked = true) :
    (runMessages msgs s).isSessionLocked = true ∧
      (resetSession s).isSessionLocked = false := by
  refine ⟨?_, rfl⟩
  induction msgs generalizing s with
  | nil => exact h
  | cons m ms ih =>
      exact ih (handleMessage m s) (handleMessage_lock_sticky m s h)

/-- A concrete `crisis_detected` event with `session_locked: true`. -/
def crisisLockMsg : WSMsg :=
  ⟨.crisisDetected ⟨9 / 10, some .suicidal, "crisis signals detected", some ["call 988"], true⟩,
    "sess-1", "2024-01-01T00:00:00Z"⟩

/-- A concrete later `risk_assessment` with `risk_level: "low"`. -/
def lowRiskMsg : WSMsg :=
  ⟨.riskAssessment ⟨1 / 10, .low, some .calm, some [], "calm speech", some [], none⟩,
    "sess-1", "2024-01-01T00:01:00Z"⟩

/-- Witness for C5: lock set by a crisis event survives a later low risk
assessment, and reset clears it. -/
theorem c5_session_lock_witness :
    (runMessages [lowRiskMsg] (handleMessage crisisLockMsg initialSessionState)).isSessionLocked
        = true ∧
      (resetSession (handleMessage crisisLockMsg initialSessionState)).isSessionLocked = false :=
  c5_session_lock_sticky [lowRiskMsg] (handleMessage crisisLockMsg initialSessionState) rfl

/-- C8: a `risk_warning` event performs a partial update of the risk
snapshot — score, level, mental-state, explanation, recommendations and
last-updated take the event's values — while the detected-emotions list
and the window-context are left exactly as they were, for every prior
snapshot. -/
theorem c8_risk_warning_partial_update (d : RiskData) (sid ts : String) (s : SessionState) :
    ((handleMessage ⟨.riskWarning d, sid, ts⟩ s).currentRisk).emotions
        = s.currentRisk.emotions ∧
      ((handleMessage ⟨.riskWarning d, sid, ts⟩ s).currentRisk).windowContext
        = s.currentRisk.windowContext ∧
      ((handleMessage ⟨.riskWarning d, sid, ts⟩ s).currentRisk).score = d.riskScore ∧
      ((handleMessage ⟨.riskWarning d, sid, ts⟩ s).currentRisk).level = d.riskLevel ∧
      ((handleMessage ⟨.riskWarning d, sid, ts⟩ s).currentRisk).mentalState
        = d.mentalState.getD .stressed ∧
      ((handleMessage ⟨.riskWarning d, sid, ts⟩ s).currentRisk).explanation = d.explanation ∧
      ((handleMessage ⟨.riskWarning d, sid, ts⟩ s).currentRisk).recommendations
        = d.recommendations.getD [] ∧
      ((handleMessage ⟨.riskWarning d, sid, ts⟩ s).currentRisk).lastUpdated = ts :=
  ⟨rfl, rfl, rfl, rfl, rfl, rfl, rfl, rfl⟩

lemma handleMessage_messages_length (m : WSMsg) (s : SessionState) :
    (handleMessage m s).messages.length = s.messages.length + 1 := by
  rcases m with ⟨d, sid, ts⟩
  cases d with
  | connectionEstablished a b cfg => cases cfg <;> simp only [handleMessage] <;> split_ifs <;> simp
  | sttReady a => simp [handleMessage]
  | transcription t f => simp only [handleMessage]; split_ifs <;> simp
  | riskAssessment dd => simp [handleMessage]
  | riskWarning dd => simp [handleMessage]
  | crisisDetected dd => simp only [handleMessage]; split_ifs <;> simp
  | audioReceived => simp [handleMessage]
  | sttErrorMsg msg => simp [handleMessage]
  | sessionSummary => simp [handleMessage]
  | serverError msg =>
      simp only [handleMessage, handleServerError]
      split_ifs <;> simp

lemma handleMessage_finalTranscripts_le (m : WSMsg) (s : SessionState)
    (h : s.finalTranscripts.length ≤ 20) :
    (handleMessage m s).finalTranscripts.length ≤ 20 := by
  rcases m with ⟨d, sid, ts⟩
  cases d with
  | connectionEstablished a b cfg => cases cfg <;> simp only [handleMessage] <;> split_ifs <;> exact h
  | sttReady a => exact h
  | transcription t f =>
      simp only [handleMessage]
      split_ifs <;> simp only [List.length_append, List.length_drop, List.length_cons,
        List.length_nil] <;> omega
  | riskAssessment dd => exact h
  | riskWarning dd => exact h
  | crisisDetected dd => simp only [handleMessage]; split_ifs <;> exact h
  | audioReceived => exact h
  | sttErrorMsg msg => exact h
  | sessionSummary => exact h
  | serverError msg =>
      simp only [handleMessage, handleServerError]
      split_ifs <;> exact h

/-- C10: from the initial state, the `finalTranscripts` list never exceeds
20 entries under any sequence of inbound events (each final transcription
keeps only the previous 19 before appending), while the general message
log grows by one per message without bound. -/
theorem c10_final_transcripts_bounded (msgs : List WSMsg) :
    (runMessages msgs initialSessionState).finalTranscripts.length ≤ 20 ∧
      (runMessages msgs initialSessionState).messages.length = msgs.length := by
  have key : ∀ (ms : List WSMsg) (s : SessionState), s.finalTranscripts.length ≤ 20 →
      (runMessages ms s).finalTranscripts.length ≤ 20 ∧
        (runMessages ms s).messages.length = s.messages.length + ms.length := by
    intro ms
    induction ms with
    | nil => exact fun s h => ⟨h, rfl⟩
    | cons m ms ih =>
        intro s h
        obtain ⟨h1, h2⟩ := ih (handleMessage m s) (handleMessage_finalTranscripts_le m s h)
        refine ⟨h1, ?_⟩
        show (runMessages ms (handleMessage m s)).messages.length = s.messages.length + (ms.length + 1)
        rw [h2, handleMessage_messages_length]
        omega
  obtain ⟨h1, h2⟩ := key msgs initialSessionState (by decide)
  exact ⟨h1, by simpa [initialSessionState] using h2⟩

/-! ### `stopRecording` (audio resource teardown) -/

/-- The audio resources and flags touched by `stopRecording`:
`isRecordingActiveRef.current`, the `isRecording` state, whether
`audioProcessor.current` / `audioContext.current` / `audioStream.current`
are non-null, and `mediaRecorder.current` (`none` = null, `some b` =
present with `b` meaning its state is `"recording"`). -/
structure RecResources where
  isRecordingActiveFlag : Bool
  isRecordingState : Bool
  processorPresent : Bool
  contextPresent : Bool
  mediaRecorder : Option Bool
  streamPresent : Bool
deriving DecidableEq, Repr

/-- The platform release operations `stopRecording` can perform. -/
inductive RecAction
  | disconnectProcessor
  | closeContext
  | stopMediaRecorder
  | stopTracks
deriving DecidableEq, Repr

/-- `stopRecording`: clear both recording flags; disconnect and null the
processor if present; close and null the context if present; stop and null
the media recorder only if it is present and in the `"recording"` state;
stop all tracks and null the stream if present.  Every release is guarded
by a null/state check, and the function throws nothing.  Returns the new
resource state together with the release operations actually performed. -/
def stopRecordingFn (s : RecResources) : RecResources × List RecAction :=
  let a1 : List RecAction := if s.processorPresent then [.disconnectProcessor] else []
  let a2 : List RecAction := if s.contextPresent then [.closeContext] else []
  let a3 : List RecAction := if s.mediaRecorder = some true then [.stopMediaRecorder] else []
  let a4 : List RecAction := if s.streamPresent then [.stopTracks] else []
  (⟨false, false, false, false,
      if s.mediaRecorder = some true then none else s.mediaRecorder, false⟩,
    a1 ++ a2 ++ a3 ++ a4)

/-- C9: `stopRecording` is idempotent — from any starting resource state,
running it a second time leaves the resource state exactly as after the
first run and performs no release operation at all (no double free). -/
theorem c9_stop_recording_idempotent (s : RecResources) :
    (stopRecordingFn (stopRecordingFn s).1).1 = (stopRecordingFn s).1 ∧
      (stopRecordingFn (stopRecordingFn s).1).2 = [] := by
  rcases s with ⟨a, b, p, c, mr, st⟩
  simp only [stopRecordingFn]
  split_ifs <;> simp_all

/-! ### Audio-frame send guards (worklet `port.onmessage` and the
ScriptProcessor `onaudioprocess` fallback) -/

/-- What is in scope when a produced frame reaches the send guard: the
provider-readiness tag at that moment, `isRecordingActiveRef.current`, and
whether `ws.current` is non-null with `readyState === OPEN`. -/
structure FrameCtx where
  sttTag : STTTag
  recordingActive : Bool
  wsOpen : Bool
deriving DecidableEq, Repr

/-- The guard shared verbatim by both capture paths:
`if (!isRecordingActiveRef.current || !ws.current || ws.current.readyState !== WebSocket.OPEN) return;`
— the frame is sent exactly when recording is active and the socket is
open.  The provider-readiness state is not consulted. -/
def frameSent (c : FrameCtx) : Bool := c.recordingActive && c.wsOpen

/-- The guard at the top of `startRecording`: rejected when already
recording, otherwise requires `isConnected` and `sttState.state === "ready"`. -/
def startRecordingAllowed (isRec isConn : Bool) (tag : STTTag) : Bool :=
  !isRec && (isConn && decide (tag = .ready))

/-- C6 counterexample: with the provider-readiness state at `error` (e.g.
after an `stt_error` event mid-recording) but recording still active and
the socket open, the guard lets the frame through — it is transmitted even
though readiness is not `ready`. -/
theorem c6_counterexample_not_ready_frame_sent :
    frameSent ⟨STTTag.error, true, true⟩ = true ∧ STTTag.error ≠ STTTag.ready := by
  decide

/-- C6 (amended): a produced frame is suppressed exactly when recording is
no longer active or the socket is not open; provider readiness is enforced
only at `startRecording` (which requires the `ready` state), not per
frame. -/
theorem c6_amended_frame_guard (c : FrameCtx) (isRec isConn : Bool) (tag : STTTag) :
    (frameSent c = true ↔ c.recordingActive = true ∧ c.wsOpen = true) ∧
      (startRecordingAllowed isRec isConn tag = true → tag = STTTag.ready) := by
  constructor
  · simp [frameSent]
  · intro h
    simp only [startRecordingAllowed, Bool.and_eq_true, decide_eq_true_eq] at h
    exact h.2.2

/-- Witness for C6 (amended) at a concrete context and concrete guard
arguments. -/
theorem c6_amended_frame_guard_witness :
    (frameSent ⟨STTTag.ready, true, true⟩ = true ↔
        (⟨STTTag.ready, true, true⟩ : FrameCtx).recordingActive = true ∧
          (⟨STTTag.ready, true, true⟩ : FrameCtx).wsOpen = true) ∧
      (startRecordingAllowed false true STTTag.ready = true → STTTag.ready = STTTag.ready) :=
  c6_amended_frame_guard ⟨STTTag.ready, true, true⟩ false true STTTag.ready

/-! ### `endSession` two-path close

`endSession` arms a fallback timer for 5000 ms which, when it fires with
the socket still open, closes it with code 1000.  The `checkComplete`
polling loop inside the same promise reads the `isProcessingComplete`
value captured when the `endSession` callback was created; when that value
was `false` at call time the poll keeps reading `false` (the React setter
does not mutate the captured binding), so `clearTimeout(fallbackTimeout)`
is never reached before the deadline and the fallback timer always fires.
The graceful close is instead performed by the `session_summary` handler
itself, which schedules `ws.close(1000, ...)` 500 ms after the event
arrives.  Whichever of the two close timers fires first with the socket
open performs the close; at an equal deadline the fallback fires first,
having been scheduled earlier.  `summaryAtMs` is the arrival time of
`session_summary` relative to the `endSession` call (`none` = no server
response). -/

inductive ClosePath
  | graceful
  | fallbackTimer
deriving DecidableEq, Repr

structure CloseOutcome where
  closeAtMs : Nat
  closeCode : Nat
  path : ClosePath
deriving DecidableEq, Repr

/-- The 500 ms delay in the `session_summary` handler. -/
def summaryGraceMs : Nat := 500

/-- The 5000 ms fallback in `endSession`. -/
def endFallbackMs : Nat := 5000

def endSessionOutcome (summaryAtMs : Option Nat) : CloseOutcome :=
  match summaryAtMs with
  | none => ⟨endFallbackMs, 1000, .fallbackTimer⟩
  | some t =>
      if t + summaryGraceMs < endFallbackMs then ⟨t + summaryGraceMs, 1000, .graceful⟩
      else ⟨endFallbackMs, 1000, .fallbackTimer⟩

/-- C1 counterexample: when `session_summary` arrives 4800 ms after
`end_session`, the safe-to-close signal did arrive, yet the transport is
closed at 5000 ms by the fallback timer (the grace close scheduled for
5300 ms finds the socket already closed) — not by the graceful path as the
claim requires of every arrival. -/
theorem c1_counterexample_late_summary_closes_via_fallback :
    endSessionOutcome (some 4800) = ⟨5000, 1000, ClosePath.fallbackTimer⟩ ∧
      (endSessionOutcome (some 4800)).path ≠ ClosePath.graceful := by
  decide

/-- C1 (amended): after `end_session`, the transport always closes with
code 1000 no later than the 5000 ms fallback deadline; if
`session_summary` arrives early enough for its 500 ms grace close to land
strictly before the deadline, the graceful path closes at arrival + 500 ms
and not via the fallback; if it arrives later or never, the fallback
closes at exactly 5000 ms.  One of the two paths fires in every execution,
so the client never blocks indefinitely. -/
theorem c1_amended_two_path_close (o : Option Nat) :
    (endSessionOutcome o).closeCode = 1000 ∧
      (endSessionOutcome o).closeAtMs ≤ endFallbackMs ∧
      (o = none → endSessionOutcome o = ⟨endFallbackMs, 1000, .fallbackTimer⟩) ∧
      (∀ t, o = some t → t + summaryGraceMs < endFallbackMs →
        endSessionOutcome o = ⟨t + summaryGraceMs, 1000, .graceful⟩) ∧
      (∀ t, o = some t → endFallbackMs ≤ t + summaryGraceMs →
        (endSessionOutcome o).closeAtMs = endFallbackMs ∧
          (endSessionOutcome o).path = ClosePath.fallbackTimer) := by
  cases o with
  | none =>
      refine ⟨rfl, le_refl _, fun _ => rfl, ?_, ?_⟩ <;> intro t ht <;> simp at ht
  | some t =>
      by_cases h : t + summaryGraceMs < endFallbackMs
      · refine ⟨?_, ?_, ?_, ?_, ?_⟩
        · simp [endSessionOutcome, h]
        · simp only [endSessionOutcome, if_pos h]
          omega
        · intro hn
          simp at hn
        · intro u hu hlt
          simp only [Option.some.injEq] at hu
          subst hu
          simp [endSessionOutcome, h]
        · intro u hu hge
          simp only [Option.some.injEq] at hu
          subst hu
          omega
      · refine ⟨?_, ?_, ?_, ?_, ?_⟩
        · simp [endSessionOutcome, h]
        · simp [endSessionOutcome, h]
        · intro hn
          simp at hn
        · intro u hu hlt
          simp only [Option.some.injEq] at hu
          subst hu
          omega
        · intro u hu hge
          simp only [Option.some.injEq] at hu
          subst hu
          simp [endSessionOutcome, h]

/-- Witness for C1 (amended): Scenario D, `session_summary` arriving
200 ms after `end_session` closes gracefully at 700 ms with code 1000. -/
theorem c1_amended_witness :
    endSessionOutcome (some 200) = ⟨700, 1000, ClosePath.graceful⟩ :=
  (c1_amended_two_path_close (some 200)).2.2.2.1 200 rfl (by decide)

end TherapistCopilot
